import Mathlib

/-!
Verification of the dfuzzer fuzzing core (`src/fuzz.c`) against its
natural-language specification.

The definitions below are a shallow embedding of the C module `fuzz.c`.
External capabilities (the random value generator, the D-Bus transport,
the executed health-check command, the kernel's per-process status file)
are modelled as oracle inputs, following the specification's interface
boundary: the code under test consumes them but does not implement them.
Allocation failures (`malloc`/`strdup` returning `NULL`) and the libffi
call plumbing of `df_fuzz_create_variant` are elided, as usual for a
shallow embedding; every logic-level branch of the C code is kept.
Generated argument values are abstracted to a type parameter `α`, since
the module never inspects their contents, only their presence.
-/

set_option autoImplicit false

/-- String constant: the remote error name checked first in `df_fuzz_call_method`. -/
def errNoReply : String := "org.freedesktop.DBus.Error.NoReply"

/-- String constant: the remote timeout error name in `df_fuzz_call_method`. -/
def errTimeout : String := "org.freedesktop.DBus.Error.Timeout"

/-- String constant: the access-denied remote error name in `df_fuzz_call_method`. -/
def errAccessDenied : String := "org.freedesktop.DBus.Error.AccessDenied"

/-- String constant: the auth-failed remote error name in `df_fuzz_call_method`. -/
def errAuthFailed : String := "org.freedesktop.DBus.Error.AuthFailed"

/-- String constant: the empty-tuple type string a void method must return. -/
def emptyTupleTy : String := "()"

/-- String constant: the substring `strstr`-searched in stripped error messages. -/
def timeoutWord : String := "Timeout"

/-- Whether `needle` is an initial segment of `hay` (used to model `strstr`). -/
def matchesAt {β : Type} [DecidableEq β] : List β → List β → Bool
  | [], _ => true
  | _ :: _, [] => false
  | a :: as, b :: bs => a = b && matchesAt as bs

/-- Whether `needle` occurs contiguously inside `hay`: the model of C `strstr`. -/
def hasSub {β : Type} [DecidableEq β] (needle : List β) : List β → Bool
  | [] => matchesAt needle []
  | c :: rest => matchesAt needle (c :: rest) || hasSub needle rest

/-- One node of the argument linked list: `struct df_signature` from `fuzz.h`
(the D-Bus signature of one argument and its currently generated value slot
`var`; the `next` pointer is represented by list structure). -/
structure DfSignature (α : Type) where
  sig : String
  var : Option α
  deriving DecidableEq, Repr

/-- The module-static state of `fuzz.c`: the global `df_list`
(`struct df_sig_list`: method name, argument count, argument list,
`fuzz_on_str_len` flag) together with the module statics
`df_except_counter`, `df_unsupported_sig` and `df_unsupported_sig_str`. -/
structure DfState (α : Type) where
  methodName : Option String
  args : Nat
  list : List (DfSignature α)
  fuzzOnStrLen : Bool
  exceptCounter : Nat
  unsupportedSig : Nat
  unsupportedStr : Option String
  deriving DecidableEq, Repr

/-- Zero-initialized module state (C static storage before any call). -/
def initDfState {α : Type} : DfState α :=
  { methodName := none, args := 0, list := [], fuzzOnStrLen := false,
    exceptCounter := 0, unsupportedSig := 0, unsupportedStr := none }

/-- `df_fuzz_add_method`: installs a fresh method descriptor; it resets the
argument list, argument count and `fuzz_on_str_len`, but touches neither
`df_except_counter` nor the unsupported-signature signal. -/
def df_fuzz_add_method {α : Type} (name : String) (st : DfState α) :
    Int × DfState α :=
  (0, { st with methodName := some name, list := [], args := 0,
                fuzzOnStrLen := false })

/-- `df_fuzz_add_method_arg`: a `NULL` signature is accepted and ignored;
otherwise the argument count grows, a fresh slot is appended, and
`fuzz_on_str_len` is set when `strstr(sig, "s")` or `strstr(sig, "v")`
finds a match (`strstr` modelled by `hasSub`). -/
def df_fuzz_add_method_arg {α : Type} (sg : Option String) (st : DfState α) :
    Int × DfState α :=
  match sg with
  | none => (0, st)
  | some g =>
      (0, { st with
              args := st.args + 1,
              fuzzOnStrLen := st.fuzzOnStrLen || hasSub ['s'] g.toList ||
                hasSub ['v'] g.toList,
              list := st.list ++ [{ sig := g, var := none }] })

/-- Builds the module state for one method: `df_fuzz_add_method` followed by
`df_fuzz_add_method_arg` for each signature, in order. -/
def buildCatalog {α : Type} (name : String) (sigs : List String) : DfState α :=
  sigs.foldl (fun st g => (df_fuzz_add_method_arg (some g) st).2)
    (df_fuzz_add_method name (initDfState (α := α))).2

/-- Modelled from the spec: the claim's notion of a string-like or variant
argument type (string `s`, object path `o`, signature string `g`, variant
`v`); used only to compare the specification's wording of the
`fuzz_on_str_len` rule with the code's rule. -/
def specStringLike (g : String) : Bool :=
  g = "s" || g = "o" || g = "g" || g = "v"

/-- The elementary one-character signature codes handled by the `switch` in
`df_fuzz_create_list_variants`. -/
def isSupportedCode (c : Char) : Bool :=
  c = 'y' || c = 'b' || c = 'n' || c = 'q' || c = 'i' || c = 'u' ||
  c = 'x' || c = 't' || c = 'd' || c = 's' || c = 'o' || c = 'g' ||
  c = 'v' || c = 'h'

/-- A slot whose signature is a single supported elementary code. -/
def isElemSlot {α : Type} (s : DfSignature α) : Bool :=
  match s.sig.toList with
  | [c] => isSupportedCode c
  | _ => false

/-- Empties one slot's generated-value field. -/
def clearVar {α : Type} (s : DfSignature α) : DfSignature α :=
  { s with var := none }

/-- The cleanup loop of the compound-signature branch of
`df_fuzz_create_list_variants`: walk from the list head unref-ing and
clearing `var` while it is set, stopping at the first empty slot
(`for (s = df_list.list; s && s->var; s = s->next)`). -/
def clearWhileSet {α : Type} : List (DfSignature α) → List (DfSignature α)
  | [] => []
  | s :: rest =>
      if s.var.isSome then clearVar s :: clearWhileSet rest else s :: rest

/-- Worker for `df_fuzz_create_list_variants`: walks the pending slots with
the processed prefix accumulated in `done`, the slot index fed to the
random generator oracle `gen`, and the current value of
`df_unsupported_sig_str` in `ustr`.  Mirrors the C control flow: an empty
or unknown signature is an error (`-1`), a single supported code receives
a generated value, and a multi-character signature aborts the whole
method: the offending signature is recorded and every already-set value
from the list head on is released. -/
def createListVariantsAux {α : Type} (gen : Nat → Char → α) :
    List (DfSignature α) → List (DfSignature α) → Nat → Option String →
    Int × List (DfSignature α) × Option String
  | done, [], _, ustr => (0, done, ustr)
  | done, s :: rest, idx, ustr =>
      match s.sig.toList with
      | [] => (-1, done ++ s :: rest, ustr)
      | [c] =>
          if isSupportedCode c then
            createListVariantsAux gen
              (done ++ [{ s with var := some (gen idx c) }]) rest (idx + 1) ustr
          else (-1, done ++ s :: rest, ustr)
      | _ :: _ :: _ =>
          (1, clearWhileSet (done ++ s :: rest), some s.sig)

/-- `df_fuzz_create_list_variants`: generates a value for every slot of the
argument list; returns `0` on success, `1` on an unsupported (compound)
signature, `-1` on error, together with the updated list and the updated
`df_unsupported_sig_str`. -/
def df_fuzz_create_list_variants {α : Type} (gen : Nat → Char → α)
    (slots : List (DfSignature α)) (ustr : Option String) :
    Int × List (DfSignature α) × Option String :=
  createListVariantsAux gen [] slots 0 ustr

/-- The running `total_len` check of `df_fuzz_create_fmt_string`: starting
from `total` (initially `1` for the opening parenthesis), add
`len + 1` per signature (the `@` tag plus the signature) and fail as soon
as the running total exceeds `n - 3`; the final check after the loop is
the same comparison.  Returns the final total on success. -/
def createFmtAux (n : Int) : List String → Nat → Option Nat
  | [], total => if (total : Int) > n - 3 then none else some total
  | g :: rest, total =>
      if ((total + (g.length + 1) : Nat) : Int) > n - 3 then none
      else createFmtAux n rest (total + (g.length + 1))

/-- The body of the composed format string: `@sig` for each argument. -/
def fmtBody : List String → String
  | [] => ""
  | g :: rest => "@" ++ g ++ fmtBody rest

/-- `df_fuzz_create_fmt_string`: composes the tuple type descriptor
`(@sig1@sig2...)` for `g_variant_new` into a buffer of `n` bytes; returns
`none` (C `-1`, no complete descriptor written) when the capacity check
fails. -/
def df_fuzz_create_fmt_string (sigs : List String) (n : Int) : Option String :=
  if (createFmtAux n sigs 1).isSome then
    some ("(" ++ fmtBody sigs ++ ")")
  else none

/-- The claim's formula for the composed descriptor length:
`1 (open) + Σ (1 + len sig_i) + 1 (close) + 1 (terminator)`. -/
def specFmtLen (sigs : List String) : Nat :=
  1 + (sigs.map fun g => 1 + g.length).sum + 1 + 1

/-- Result of `df_fuzz_create_variant`: whether a non-`NULL` tuple value was
produced, the updated argument list, and the updated unsupported-signature
signal (`df_unsupported_sig` counter and `df_unsupported_sig_str`). -/
structure CVOut (α : Type) where
  value : Bool
  slots : List (DfSignature α)
  us : Nat
  ustr : Option String
  deriving DecidableEq, Repr

/-- `df_fuzz_create_variant`: runs `df_fuzz_create_list_variants`; an error
produces `NULL`; an unsupported signature increments `df_unsupported_sig`
and produces `NULL`; otherwise the format string is composed (a failure
produces `NULL`) and the tuple is built and sunk to a normal reference
(the libffi call and `g_variant_ref_sink` always succeed in the model;
their failure paths are allocation-level and elided). -/
def df_fuzz_create_variant {α : Type} (gen : Nat → Char → α)
    (slots : List (DfSignature α)) (fmtBuf : Int) (us : Nat)
    (ustr : Option String) : CVOut α :=
  let lv := df_fuzz_create_list_variants gen slots ustr
  if lv.1 = -1 then { value := false, slots := lv.2.1, us := us, ustr := lv.2.2 }
  else if lv.1 = 1 then
    { value := false, slots := lv.2.1, us := us + 1, ustr := lv.2.2 }
  else if (df_fuzz_create_fmt_string (lv.2.1.map fun s => s.sig) fmtBuf).isSome then
    { value := true, slots := lv.2.1, us := us, ustr := lv.2.2 }
  else { value := false, slots := lv.2.1, us := us, ustr := lv.2.2 }

/-- The transport's answer to one synchronous proxy call: either a response
carrying its tuple type string, or an error with an optional structured
remote-error name and the (stripped) human-readable message. -/
inductive DBusReply where
  | ok (typeStr : String)
  | err (remote : Option String) (message : String)
  deriving DecidableEq, Repr

/-- `df_fuzz_call_method`: classifies one call's reply.  Returns the C return
value paired with the updated `df_except_counter`: `-1` on no-reply or
timeout remote errors, `2` on access-denied / auth-failed or when the
stripped message mentions `Timeout`, `0` (counting one tolerated
exception) on any other error, `1` when a void method returns a tuple
type other than `()`, and `0` on an accepted response. -/
def df_fuzz_call_method (voidMethod : Bool) (reply : DBusReply) (c : Nat) :
    Int × Nat :=
  match reply with
  | .err remote msg =>
      if remote = some errNoReply then (-1, c)
      else if remote = some errTimeout then (-1, c)
      else if remote = some errAccessDenied || remote = some errAuthFailed then
        (2, c)
      else if hasSub timeoutWord.toList msg.toList then (2, c)
      else (0, c + 1)
  | .ok typeStr =>
      if voidMethod && !(typeStr == emptyTupleTy) then (1, c) else (0, c)

/-- `df_exec_cmd_check`: a `NULL` command always succeeds with `0`; otherwise
the oracle `res` stands for the redirected execution's outcome
(`WEXITSTATUS` of `system`, or `-1` for a spawn/redirection failure). -/
def df_exec_cmd_check (cmd : Option String) (res : Int) : Int :=
  match cmd with
  | none => 0
  | some _ => res

/-- The kernel-exposed `/proc/<pid>/status` record as the probe can observe
it: the file is absent (`ENOENT`/`ENOTDIR` on open, the process is gone),
the open fails for another reason, or it opens and yields a list of lines
— each either a parsed `CoreDumping: d` field or some other line — with
`readErr` meaning `getline` fails with a stream error after the listed
lines (`ferror` becomes set). -/
inductive ProcStatus where
  | absent
  | openFail
  | content (lines : List (Option Int)) (readErr : Bool)
  deriving DecidableEq, Repr

/-- The `getline` scan of `df_check_if_exited`: the first `CoreDumping`
field decides (`> 0` means core dump in progress, report exited `0`;
otherwise break and report alive `1` — at a break point no stream error
has occurred); if the lines run out, `ferror` decides (`0` exited on a
read error, else `1` alive). -/
def scanStatus : List (Option Int) → Bool → Int
  | [], readErr => if readErr then 0 else 1
  | some d :: _, _ => if d > 0 then 0 else 1
  | none :: rest, readErr => scanStatus rest readErr

/-- `df_check_if_exited`: `0` means the target exited (or is mid core dump),
`1` means alive, `-1` is an error (open failed with an errno other than
`ENOENT`/`ENOTDIR`). -/
def df_check_if_exited (st : ProcStatus) : Int :=
  match st with
  | .absent => 0
  | .openFail => -1
  | .content lines readErr => scanStatus lines readErr

/-- The per-iteration oracle inputs of the fuzz loop: the random generator
capability for this iteration, the transport's reply, the health-check
execution outcome, and the `/proc` status record observed by the probe. -/
structure IterEnv (α : Type) where
  gen : Nat → Char → α
  reply : DBusReply
  execRes : Int
  status : ProcStatus

/-- Observable outcome of one `df_fuzz_test_method` call: the verdict
(C return value), the module state afterwards, whether the `fail_label`
path wrote the full input log record (`df_fuzz_write_log` of the
triggering argument values), the trace of `df_except_counter` values
observed right after each completed call, the value of `ret` at the
exception-cap break when one happened, and the signature text consumed by
the unsupported-signature skip when one happened. -/
structure TestOutcome (α : Type) where
  verdict : Int
  state : DfState α
  failInputLogged : Bool
  counterTrace : List Nat
  capBreakRet : Option Int
  unsupSkipSig : Option String

/-- The code after the fuzz loop of `df_fuzz_test_method`: a zero `ret` and
`execr` is a pass (`0`); otherwise `fail_label` writes the input record
only when `ret != 1`, then returns `2` for a void-contract violation
(`ret == 1`), `4` for a failed health-check command (`execr > 0`), and
`1` (crash) otherwise. -/
def finishTest {α : Type} (st : DfState α) (ret execr : Int)
    (trace : List Nat) (capRet : Option Int) : TestOutcome α :=
  if ret ≠ 0 ∨ execr ≠ 0 then
    if ret = 1 then
      { verdict := 2, state := st, failInputLogged := false,
        counterTrace := trace, capBreakRet := capRet, unsupSkipSig := none }
    else if execr > 0 then
      { verdict := 4, state := st, failInputLogged := true,
        counterTrace := trace, capBreakRet := capRet, unsupSkipSig := none }
    else
      { verdict := 1, state := st, failInputLogged := true,
        counterTrace := trace, capBreakRet := capRet, unsupSkipSig := none }
  else
    { verdict := 0, state := st, failInputLogged := false,
      counterTrace := trace, capBreakRet := capRet, unsupSkipSig := none }

/-- Result of one body execution of the fuzz loop: either the function
returns (directly or through `fail_label`), or the loop continues with
updated state. -/
inductive StepRes (α : Type) where
  | done (out : TestOutcome α)
  | cont (st : DfState α) (ret execr : Int) (trace : List Nat)

/-- One iteration of the `while (df_rand_continue(...))` body of
`df_fuzz_test_method`, in source order: create the argument variant (a
`NULL` result is an unsupported-signature skip returning `0` if the
signal is set — consuming it — and an internal error `-1` otherwise);
call the method; run the health-check command (`execr < 0` is an internal
error, `execr > 0` breaks); probe liveness (`< 0` is an internal error,
`0` sets `ret = -1` and breaks); `ret == 2` returns success immediately;
`ret > 0` breaks; finally the exception cap is checked: reaching
`MAX_EXCEPTIONS` resets the counter and breaks. -/
def loopIter {α : Type} (maxExc : Nat) (fmtBuf : Int) (voidMethod : Bool)
    (cmd : Option String) (env : IterEnv α) (st : DfState α)
    (trace : List Nat) : StepRes α :=
  let cv := df_fuzz_create_variant env.gen st.list fmtBuf st.unsupportedSig
    st.unsupportedStr
  let st1 : DfState α :=
    { st with list := cv.slots, unsupportedSig := cv.us, unsupportedStr := cv.ustr }
  if cv.value = false then
    if st1.unsupportedSig ≠ 0 then
      .done { verdict := 0,
              state := { st1 with unsupportedSig := 0, unsupportedStr := none },
              failInputLogged := false, counterTrace := trace,
              capBreakRet := none, unsupSkipSig := st1.unsupportedStr }
    else
      .done { verdict := -1, state := st1, failInputLogged := false,
              counterTrace := trace, capBreakRet := none, unsupSkipSig := none }
  else
    let rc := df_fuzz_call_method voidMethod env.reply st1.exceptCounter
    let st2 : DfState α := { st1 with exceptCounter := rc.2 }
    let ret : Int := rc.1
    let execr : Int := df_exec_cmd_check cmd env.execRes
    let trace2 := trace ++ [rc.2]
    if execr < 0 then
      .done { verdict := -1, state := st2, failInputLogged := false,
              counterTrace := trace2, capBreakRet := none, unsupSkipSig := none }
    else if 0 < execr then
      .done (finishTest st2 ret execr trace2 none)
    else if df_check_if_exited env.status < 0 then
      .done { verdict := -1, state := st2, failInputLogged := false,
              counterTrace := trace2, capBreakRet := none, unsupSkipSig := none }
    else if df_check_if_exited env.status = 0 then
      .done (finishTest st2 (-1) execr trace2 none)
    else if ret = 2 then
      .done { verdict := 0, state := st2, failInputLogged := false,
              counterTrace := trace2, capBreakRet := none, unsupSkipSig := none }
    else if 0 < ret then
      .done (finishTest st2 ret execr trace2 none)
    else if st2.exceptCounter = maxExc then
      .done (finishTest { st2 with exceptCounter := 0 } ret execr trace2 (some ret))
    else
      .cont st2 ret execr trace2

/-- The fuzz loop of `df_fuzz_test_method`: the oracle list `envs` plays the
role of `df_rand_continue` (running out of elements is the predicate
returning false) and supplies each iteration's external inputs; `ret` and
`execr` carry the C locals across iterations. -/
def fuzzLoop {α : Type} (maxExc : Nat) (fmtBuf : Int) (voidMethod : Bool)
    (cmd : Option String) :
    List (IterEnv α) → DfState α → Int → Int → List Nat → TestOutcome α
  | [], st, ret, execr, trace => finishTest st ret execr trace none
  | env :: rest, st, _, _, trace =>
      match loopIter maxExc fmtBuf voidMethod cmd env st trace with
      | .done out => out
      | .cont st' ret' execr' trace' =>
          fuzzLoop maxExc fmtBuf voidMethod cmd rest st' ret' execr' trace'

/-- `df_fuzz_test_method`: tests the method described by `st` with the
per-iteration oracles `envs`; `ret` and `execr` start at `0`.  `maxExc`
is the configured `MAX_EXCEPTIONS` cap and `fmtBuf` the format-string
buffer size `MAXFMT + 1` (both configured outside this file's sources). -/
def df_fuzz_test_method {α : Type} (maxExc : Nat) (fmtBuf : Int)
    (voidMethod : Bool) (cmd : Option String) (st : DfState α)
    (envs : List (IterEnv α)) : TestOutcome α :=
  fuzzLoop maxExc fmtBuf voidMethod cmd envs st 0 0 []

/-- Allocation-state view of the catalog for `df_fuzz_clean_method`:
whether the `df_method_name` pointer is `NULL`, whether the allocation it
points to is still live, and the live argument-slot nodes (by signature).
`df_fuzz_clean_method` frees the name without clearing the pointer, so
after one release the pointer dangles; freeing a dangling pointer is a
double free, modelled as `none`.  The slot walk frees each node and
leaves the list head `NULL`, so that part alone is idempotent. -/
structure CatalogMem where
  namePtrNull : Bool
  nameLive : Bool
  slots : List String
  deriving DecidableEq, Repr

/-- `df_fuzz_clean_method`: `free(df_list.df_method_name)` (freeing `NULL`
is a no-op; freeing a dangling non-`NULL` pointer is a double free,
`none`), then free every list node and leave `df_list.list == NULL`. -/
def df_fuzz_clean_method (st : CatalogMem) : Option CatalogMem :=
  if st.namePtrNull then some { st with slots := [] }
  else if st.nameLive then
    some { namePtrNull := false, nameLive := false, slots := [] }
  else none

/-! ### Concrete fixtures used by closed theorems (witnesses and counterexamples) -/

/-- Trivial value-generator oracle over the unit value type. -/
def unitGen : Nat → Char → Unit := fun _ _ => ()

/-- A status record with no lines and no read error: the probe reports alive. -/
def aliveStatus : ProcStatus := ProcStatus.content [] false

/-- A reply carrying the empty tuple. -/
def okReplyEmpty : DBusReply := DBusReply.ok emptyTupleTy

/-- A generic remote exception message (no structured remote error name). -/
def excMsg : String := "Remote method raised an exception"

/-- An ordinary tolerated remote exception. -/
def excReply : DBusReply := DBusReply.err none excMsg

/-- The tuple type `(s)`: a non-void response. -/
def sTupleTy : String := "(s)"

/-- A response violating a void method's contract. -/
def violReply : DBusReply := DBusReply.ok sTupleTy

/-- Signature `i` (32-bit signed integer). -/
def iSig : String := "i"

/-- Compound signature `as` (array of strings), unsupported by the engine. -/
def asSig : String := "as"

/-- Signature `o` (object path). -/
def oSig : String := "o"

/-- The composed format string for the single signature `i`. -/
def fmtI : String := "(@i)"

/-- A method name fixture. -/
def mName : String := "TestMethod"

/-- A second method name fixture (the next method after a switch). -/
def mName2 : String := "NextMethod"

/-- A health-check command fixture. -/
def cmdStr : String := "health-check.sh"

/-- Iteration oracle: tolerated exception, health check passes, target alive. -/
def envExc : IterEnv Unit :=
  { gen := unitGen, reply := excReply, execRes := 0, status := aliveStatus }

/-- Iteration oracle: clean reply but the health-check command exits with 1. -/
def envHealthFail : IterEnv Unit :=
  { gen := unitGen, reply := okReplyEmpty, execRes := 1, status := aliveStatus }

/-- Iteration oracle: void-contract-violating reply, everything else healthy. -/
def envViol : IterEnv Unit :=
  { gen := unitGen, reply := violReply, execRes := 0, status := aliveStatus }

/-- Iteration oracle: the status record exists but opening it fails. -/
def envOpenFail : IterEnv Unit :=
  { gen := unitGen, reply := okReplyEmpty, execRes := 0,
    status := ProcStatus.openFail }

/-- Iteration oracle: clean reply, health check passes, target alive. -/
def envPlain : IterEnv Unit :=
  { gen := unitGen, reply := okReplyEmpty, execRes := 0, status := aliveStatus }

/-- An argument slot with elementary signature `i`. -/
def slotI : DfSignature Unit := { sig := iSig, var := none }

/-- An argument slot with compound signature `as`. -/
def slotAs : DfSignature Unit := { sig := asSig, var := none }

/-- Module state right after `df_fuzz_add_method` for the first method. -/
def c4State : DfState Unit := (df_fuzz_add_method mName initDfState).2

/-- A concrete completed test: three tolerated exceptions, then the
health-check command fails; the method verdict is 4 and the exception
counter is left at 3. -/
def c4Out : TestOutcome Unit :=
  df_fuzz_test_method 5 64 false (some cmdStr) c4State
    [envExc, envExc, envExc, envHealthFail]

/-- A catalog whose second argument has the compound signature `as`. -/
def c5State : DfState Unit :=
  { initDfState (α := Unit) with args := 2, list := [slotI, slotAs] }

/-- A concrete completed test of a void method whose reply is `(s)`. -/
def c8Out : TestOutcome Unit :=
  df_fuzz_test_method 5 64 true none initDfState [envViol]

example : c4Out.verdict = 4 ∧ c4Out.state.exceptCounter = 3 := by decide
example : c8Out.verdict = 2 ∧ c8Out.failInputLogged = false := by decide
example : df_fuzz_create_fmt_string [iSig] 5 = none := by decide
example : specFmtLen [iSig] = 5 := by decide
example : (buildCatalog (α := Unit) mName [oSig]).fuzzOnStrLen = false := by decide
example : [oSig].any specStringLike = true := by decide


/-! ### Helper lemmas about the loop epilogue `finishTest` -/

theorem finishTest_state {α : Type} (st : DfState α) (ret execr : Int)
    (tr : List Nat) (cap : Option Int) : (finishTest st ret execr tr cap).state = st := by
  unfold finishTest; split_ifs <;> rfl

theorem finishTest_trace {α : Type} (st : DfState α) (ret execr : Int)
    (tr : List Nat) (cap : Option Int) :
    (finishTest st ret execr tr cap).counterTrace = tr := by
  unfold finishTest; split_ifs <;> rfl

theorem finishTest_cap {α : Type} (st : DfState α) (ret execr : Int)
    (tr : List Nat) (cap : Option Int) :
    (finishTest st ret execr tr cap).capBreakRet = cap := by
  unfold finishTest; split_ifs <;> rfl

theorem finishTest_verdict_mem {α : Type} (st : DfState α) (ret execr : Int)
    (tr : List Nat) (cap : Option Int) :
    (finishTest st ret execr tr cap).verdict = 0 ∨
    (finishTest st ret execr tr cap).verdict = 1 ∨
    (finishTest st ret execr tr cap).verdict = 2 ∨
    (finishTest st ret execr tr cap).verdict = 4 := by
  unfold finishTest; split_ifs <;> simp

theorem finishTest_verdict_two {α : Type} (st : DfState α) (ret execr : Int)
    (tr : List Nat) (cap : Option Int)
    (h : (finishTest st ret execr tr cap).verdict = 2) :
    (finishTest st ret execr tr cap).failInputLogged = false := by
  unfold finishTest at *; split_ifs at h ⊢ <;> simp_all

theorem finishTest_zero {α : Type} (st : DfState α) (tr : List Nat)
    (cap : Option Int) :
    (finishTest st 0 0 tr cap).verdict = 0 := by
  unfold finishTest; simp

/-! ### Helper lemmas about one loop iteration -/

theorem call_method_counter_le (vm : Bool) (reply : DBusReply) (c : Nat) :
    (df_fuzz_call_method vm reply c).2 ≤ c + 1 := by
  cases reply <;> simp only [df_fuzz_call_method] <;> split_ifs <;> simp

theorem loopIter_done_verdict_mem {α : Type} (mE : Nat) (fB : Int) (vm : Bool)
    (cmd : Option String) (env : IterEnv α) (st : DfState α) (tr : List Nat)
    {out : TestOutcome α}
    (h : loopIter mE fB vm cmd env st tr = .done out) :
    out.verdict = 0 ∨ out.verdict = 1 ∨ out.verdict = 2 ∨ out.verdict = 4 ∨
    out.verdict = -1 := by
  simp only [loopIter] at h
  split_ifs at h <;> injection h with h' <;> subst h' <;>
    first
      | simp
      | (unfold finishTest; split_ifs <;> simp)

theorem loopIter_done_two {α : Type} (mE : Nat) (fB : Int) (vm : Bool)
    (cmd : Option String) (env : IterEnv α) (st : DfState α) (tr : List Nat)
    {out : TestOutcome α}
    (h : loopIter mE fB vm cmd env st tr = .done out)
    (h2 : out.verdict = 2) : out.failInputLogged = false := by
  simp only [loopIter] at h
  split_ifs at h <;> injection h with h' <;> subst h' <;>
    first
      | simp
      | exact finishTest_verdict_two _ _ _ _ _ h2

theorem loopIter_done_cap {α : Type} (mE : Nat) (fB : Int) (vm : Bool)
    (cmd : Option String) (env : IterEnv α) (st : DfState α) (tr : List Nat)
    {out : TestOutcome α}
    (h : loopIter mE fB vm cmd env st tr = .done out)
    (hc : out.capBreakRet = some 0) :
    out.verdict = 0 ∧ out.state.exceptCounter = 0 := by
  simp only [loopIter] at h
  split_ifs at h with hv hus he1 he2 hc1 hc2 hr2 hrp hcap <;>
    injection h with h' <;> subst h' <;>
    (try (rw [finishTest_cap] at hc)) <;> (try (simp at hc))
  have hex : df_exec_cmd_check cmd env.execRes = 0 := by omega
  rw [hc, hex]
  exact ⟨finishTest_zero _ _ _, by rw [finishTest_state]⟩

set_option maxHeartbeats 2000000 in
theorem loopIter_counter {α : Type} (mE : Nat) (fB : Int) (vm : Bool)
    (cmd : Option String) (env : IterEnv α) (st : DfState α) (tr : List Nat)
    (hst : st.exceptCounter < mE) (htr : ∀ x ∈ tr, x ≤ mE) :
    (∀ out : TestOutcome α, loopIter mE fB vm cmd env st tr = .done out →
       (∀ x ∈ out.counterTrace, x ≤ mE) ∧ out.state.exceptCounter ≤ mE) ∧
    (∀ (st' : DfState α) (ret' execr' : Int) (tr' : List Nat),
       loopIter mE fB vm cmd env st tr = .cont st' ret' execr' tr' →
       st'.exceptCounter < mE ∧ ∀ x ∈ tr', x ≤ mE) := by
  have hc2 := call_method_counter_le vm env.reply st.exceptCounter
  have htr2 : ∀ x ∈ tr ++ [(df_fuzz_call_method vm env.reply st.exceptCounter).2],
      x ≤ mE := by
    intro x hx
    rcases List.mem_append.mp hx with hx | hx
    · exact htr x hx
    · simp at hx; omega
  constructor
  · intro out h
    simp only [loopIter] at h
    split_ifs at h <;> injection h with h' <;> subst h' <;>
      simp only [finishTest_trace, finishTest_state] <;>
      refine ⟨?_, ?_⟩ <;> first | assumption | omega
  · intro st' ret' execr' tr' h
    simp only [loopIter] at h
    split_ifs at h with hv hus he1 he2 hch1 hch2 hr2 hrp hcap <;>
      injection h with h1 h2 h3 h4
    subst h1; subst h4
    have hne : (df_fuzz_call_method vm env.reply st.exceptCounter).2 ≠ mE := hcap
    refine ⟨?_, htr2⟩
    show (df_fuzz_call_method vm env.reply st.exceptCounter).2 < mE
    omega

/-! ### Helper lemmas about the whole fuzz loop -/

theorem fuzzLoop_verdict_mem {α : Type} (mE : Nat) (fB : Int) (vm : Bool)
    (cmd : Option String) :
    ∀ (envs : List (IterEnv α)) (st : DfState α) (ret execr : Int)
      (tr : List Nat),
      (fuzzLoop mE fB vm cmd envs st ret execr tr).verdict = 0 ∨
      (fuzzLoop mE fB vm cmd envs st ret execr tr).verdict = 1 ∨
      (fuzzLoop mE fB vm cmd envs st ret execr tr).verdict = 2 ∨
      (fuzzLoop mE fB vm cmd envs st ret execr tr).verdict = 4 ∨
      (fuzzLoop mE fB vm cmd envs st ret execr tr).verdict = -1
  | [], st, ret, execr, tr => by
      simp only [fuzzLoop]
      rcases finishTest_verdict_mem st ret execr tr none with h | h | h | h <;>
        simp [h]
  | env :: rest, st, ret, execr, tr => by
      simp only [fuzzLoop]
      rcases hstep : loopIter mE fB vm cmd env st tr with out | ⟨st', r', e', tr'⟩
      · exact loopIter_done_verdict_mem mE fB vm cmd env st tr hstep
      · exact fuzzLoop_verdict_mem mE fB vm cmd rest st' r' e' tr'

theorem fuzzLoop_two {α : Type} (mE : Nat) (fB : Int) (vm : Bool)
    (cmd : Option String) :
    ∀ (envs : List (IterEnv α)) (st : DfState α) (ret execr : Int)
      (tr : List Nat),
      (fuzzLoop mE fB vm cmd envs st ret execr tr).verdict = 2 →
      (fuzzLoop mE fB vm cmd envs st ret execr tr).failInputLogged = false
  | [], st, ret, execr, tr => by
      simp only [fuzzLoop]
      exact finishTest_verdict_two st ret execr tr none
  | env :: rest, st, ret, execr, tr => by
      simp only [fuzzLoop]
      rcases hstep : loopIter mE fB vm cmd env st tr with out | ⟨st', r', e', tr'⟩
      · exact loopIter_done_two mE fB vm cmd env st tr hstep
      · exact fuzzLoop_two mE fB vm cmd rest st' r' e' tr'

theorem fuzzLoop_cap {α : Type} (mE : Nat) (fB : Int) (vm : Bool)
    (cmd : Option String) :
    ∀ (envs : List (IterEnv α)) (st : DfState α) (ret execr : Int)
      (tr : List Nat),
      (fuzzLoop mE fB vm cmd envs st ret execr tr).capBreakRet = some 0 →
      (fuzzLoop mE fB vm cmd envs st ret execr tr).verdict = 0 ∧
      (fuzzLoop mE fB vm cmd envs st ret execr tr).state.exceptCounter = 0
  | [], st, ret, execr, tr => by
      simp only [fuzzLoop]
      intro hc
      rw [finishTest_cap] at hc
      exact absurd hc (by simp)
  | env :: rest, st, ret, execr, tr => by
      simp only [fuzzLoop]
      rcases hstep : loopIter mE fB vm cmd env st tr with out | ⟨st', r', e', tr'⟩
      · exact loopIter_done_cap mE fB vm cmd env st tr hstep
      · exact fuzzLoop_cap mE fB vm cmd rest st' r' e' tr'

theorem fuzzLoop_counter {α : Type} (mE : Nat) (fB : Int) (vm : Bool)
    (cmd : Option String) :
    ∀ (envs : List (IterEnv α)) (st : DfState α) (ret execr : Int)
      (tr : List Nat),
      st.exceptCounter < mE → (∀ x ∈ tr, x ≤ mE) →
      (∀ x ∈ (fuzzLoop mE fB vm cmd envs st ret execr tr).counterTrace, x ≤ mE) ∧
      (fuzzLoop mE fB vm cmd envs st ret execr tr).state.exceptCounter ≤ mE
  | [], st, ret, execr, tr => by
      intro hst htr
      simp only [fuzzLoop]
      rw [finishTest_trace, finishTest_state]
      exact ⟨htr, Nat.le_of_lt hst⟩
  | env :: rest, st, ret, execr, tr => by
      intro hst htr
      simp only [fuzzLoop]
      rcases hstep : loopIter mE fB vm cmd env st tr with out | ⟨st', r', e', tr'⟩
      · exact (loopIter_counter mE fB vm cmd env st tr hst htr).1 out hstep
      · obtain ⟨h1, h2⟩ := (loopIter_counter mE fB vm cmd env st tr hst htr).2
          st' r' e' tr' hstep
        exact fuzzLoop_counter mE fB vm cmd rest st' r' e' tr' h1 h2

/-- C1: every completed `df_fuzz_test_method` run returns exactly one verdict
from the fixed taxonomy — `0` (success, including skips), `1` (crash
detected), `2` (void method returned a non-void value), `4` (health-check
command finished unsuccessfully), or a negative value (internal error);
no other non-reserved code (in particular not the reserved `3`) is ever
returned, whatever the catalog, configuration and per-iteration oracle
inputs are. -/
theorem verdict_taxonomy {α : Type} (maxExc : Nat) (fmtBuf : Int)
    (voidMethod : Bool) (cmd : Option String) (st : DfState α)
    (envs : List (IterEnv α)) :
    (df_fuzz_test_method maxExc fmtBuf voidMethod cmd st envs).verdict = 0 ∨
    (df_fuzz_test_method maxExc fmtBuf voidMethod cmd st envs).verdict = 1 ∨
    (df_fuzz_test_method maxExc fmtBuf voidMethod cmd st envs).verdict = 2 ∨
    (df_fuzz_test_method maxExc fmtBuf voidMethod cmd st envs).verdict = 4 ∨
    (df_fuzz_test_method maxExc fmtBuf voidMethod cmd st envs).verdict < 0 := by
  rcases fuzzLoop_verdict_mem maxExc fmtBuf voidMethod cmd envs st 0 0 []
    with h | h | h | h | h
  · exact Or.inl h
  · exact Or.inr (Or.inl h)
  · exact Or.inr (Or.inr (Or.inl h))
  · exact Or.inr (Or.inr (Or.inr (Or.inl h)))
  · refine Or.inr (Or.inr (Or.inr (Or.inr ?_)))
    unfold df_fuzz_test_method
    omega

/-! ### Helper lemmas about the value-generation engine -/

theorem isElemSlot_iff {α : Type} (s : DfSignature α) :
    isElemSlot s = true ↔
      ∃ c, s.sig.toList = [c] ∧ isSupportedCode c = true := by
  unfold isElemSlot
  rcases hl : s.sig.toList with _ | ⟨a, _ | ⟨b, t⟩⟩ <;> simp

theorem clearVar_of_none {α : Type} (p : DfSignature α) (h : p.var = none) :
    clearVar p = p := by
  cases p; simp_all [clearVar]

theorem clearVar_set {α : Type} (p : DfSignature α) (v : Option α) :
    clearVar { p with var := v } = clearVar p := by
  cases p; simp [clearVar]

theorem clearWhileSet_of_none {α : Type} (s0 : DfSignature α)
    (post : List (DfSignature α)) (h0 : s0.var = none) :
    ∀ l1 : List (DfSignature α), (∀ p ∈ l1, p.var.isSome = true) →
      clearWhileSet (l1 ++ s0 :: post) = l1.map clearVar ++ s0 :: post := by
  intro l1
  induction l1 with
  | nil => intro _; simp [clearWhileSet, h0]
  | cons p l ih =>
      intro hl
      have hp : p.var.isSome = true := hl p (List.mem_cons_self p l)
      simp [clearWhileSet, hp, ih (fun q hq => hl q (List.mem_cons_of_mem p hq))]

theorem listVariantsAux_elem {α : Type} (gen : Nat → Char → α) :
    ∀ (slots done : List (DfSignature α)) (idx : Nat) (ustr : Option String),
      (∀ s ∈ slots, isElemSlot s = true) →
      ∃ done2,
        createListVariantsAux gen done slots idx ustr = (0, done ++ done2, ustr) ∧
        done2.map (fun s => s.sig) = slots.map (fun s => s.sig)
  | [], done, idx, ustr, _ => ⟨[], by simp [createListVariantsAux], rfl⟩
  | s :: rest, done, idx, ustr, hall => by
      obtain ⟨c, hc, hsup⟩ := (isElemSlot_iff s).mp (hall s (List.mem_cons_self s rest))
      obtain ⟨d2, hd, hmap⟩ :=
        listVariantsAux_elem gen rest (done ++ [{ s with var := some (gen idx c) }])
          (idx + 1) ustr (fun q hq => hall q (List.mem_cons_of_mem s hq))
      refine ⟨{ s with var := some (gen idx c) } :: d2, ?_, ?_⟩
      · simp only [createListVariantsAux, hc, hsup, if_pos, hd]
        simp
      · simp [hmap]

theorem listVariantsAux_compound {α : Type} (gen : Nat → Char → α)
    (s0 : DfSignature α) (post : List (DfSignature α))
    (h0 : 2 ≤ s0.sig.toList.length) (hv0 : s0.var = none) :
    ∀ (pre done : List (DfSignature α)) (idx : Nat) (ustr : Option String),
      (∀ p ∈ pre, isElemSlot p = true ∧ p.var = none) →
      (∀ p ∈ done, p.var.isSome = true) →
      createListVariantsAux gen done (pre ++ s0 :: post) idx ustr =
        (1, done.map clearVar ++ pre ++ s0 :: post, some s0.sig) := by
  intro pre
  induction pre with
  | nil =>
      intro done idx ustr _ hdone
      rcases hts : s0.sig.toList with _ | ⟨a, _ | ⟨b, t⟩⟩
      · rw [hts] at h0; simp at h0
      · rw [hts] at h0; simp at h0
      · simp only [List.nil_append, createListVariantsAux, hts]
        rw [clearWhileSet_of_none s0 post hv0 done hdone]
        simp
  | cons p pre ih =>
      intro done idx ustr hpre hdone
      obtain ⟨hep, hvp⟩ := hpre p (List.mem_cons_self _ _)
      obtain ⟨c, hc, hsup⟩ := (isElemSlot_iff p).mp hep
      simp only [List.cons_append, createListVariantsAux, hc, hsup, if_pos,
        List.append_eq]
      rw [ih (done ++ [({ p with var := some (gen idx c) } : DfSignature α)])
            (idx + 1) ustr
            (fun q hq => hpre q (List.mem_cons_of_mem _ hq))
            (by
              intro q hq
              rcases List.mem_append.mp hq with hq | hq
              · exact hdone q hq
              · simp at hq; subst hq; simp)]
      rw [List.map_append]
      simp [clearVar_set, clearVar_of_none p hvp]

theorem create_variant_ok {α : Type} (gen : Nat → Char → α)
    (slots : List (DfSignature α)) (fB : Int) (us : Nat) (ustr : Option String)
    (hElem : ∀ s ∈ slots, isElemSlot s = true)
    (hFmt : (df_fuzz_create_fmt_string (slots.map fun s => s.sig) fB).isSome = true) :
    (df_fuzz_create_variant gen slots fB us ustr).value = true ∧
    (df_fuzz_create_variant gen slots fB us ustr).us = us ∧
    (df_fuzz_create_variant gen slots fB us ustr).ustr = ustr := by
  obtain ⟨d2, hd, hmap⟩ := listVariantsAux_elem gen slots [] 0 ustr hElem
  simp only [df_fuzz_create_variant, df_fuzz_create_list_variants, hd]
  simp [hmap, hFmt]

theorem create_variant_compound {α : Type} (gen : Nat → Char → α)
    (pre post : List (DfSignature α)) (s0 : DfSignature α) (fB : Int)
    (us : Nat) (ustr : Option String)
    (hpre : ∀ p ∈ pre, isElemSlot p = true ∧ p.var = none)
    (h0 : 2 ≤ s0.sig.toList.length) (hv0 : s0.var = none) :
    df_fuzz_create_variant gen (pre ++ s0 :: post) fB us ustr =
      { value := false, slots := pre ++ s0 :: post, us := us + 1,
        ustr := some s0.sig } := by
  have hcl := listVariantsAux_compound gen s0 post h0 hv0 pre [] 0 ustr hpre
    (by intro q hq; simp at hq)
  simp only [df_fuzz_create_variant, df_fuzz_create_list_variants, hcl]
  simp

theorem finishTest_one {α : Type} (st : DfState α) (e : Int) (tr : List Nat)
    (cap : Option Int) :
    (finishTest st 1 e tr cap).verdict = 2 ∧
    (finishTest st 1 e tr cap).failInputLogged = false := by
  unfold finishTest
  split_ifs <;> simp_all

theorem loopIter_void_violation {α : Type} (mE : Nat) (fB : Int)
    (env : IterEnv α) (st : DfState α) (tr : List Nat) (t : String)
    (hcv : (df_fuzz_create_variant env.gen st.list fB st.unsupportedSig
      st.unsupportedStr).value = true)
    (hrep : env.reply = DBusReply.ok t) (ht : (t == emptyTupleTy) = false)
    (hAlive : df_check_if_exited env.status = 1) :
    ∃ out, loopIter mE fB true none env st tr = .done out ∧
      out.verdict = 2 ∧ out.failInputLogged = false := by
  have hcall : df_fuzz_call_method true env.reply st.exceptCounter =
      (1, st.exceptCounter) := by
    rw [hrep]
    simp [df_fuzz_call_method, ht]
  simp only [loopIter, hcv, hcall, df_exec_cmd_check, hAlive]
  norm_num
  exact finishTest_one _ _ _ _

theorem loopIter_open_fail {α : Type} (mE : Nat) (fB : Int) (vm : Bool)
    (env : IterEnv α) (st : DfState α) (tr : List Nat)
    (hcv : (df_fuzz_create_variant env.gen st.list fB st.unsupportedSig
      st.unsupportedStr).value = true)
    (hstat : env.status = ProcStatus.openFail) :
    ∃ out, loopIter mE fB vm none env st tr = .done out ∧ out.verdict = -1 := by
  simp only [loopIter, hcv, hstat, df_exec_cmd_check, df_check_if_exited]
  norm_num

theorem loopIter_compound {α : Type} (mE : Nat) (fB : Int) (vm : Bool)
    (cmd : Option String) (env : IterEnv α) (st : DfState α) (tr : List Nat)
    (pre post : List (DfSignature α)) (s0 : DfSignature α)
    (hlist : st.list = pre ++ s0 :: post)
    (hpre : ∀ p ∈ pre, isElemSlot p = true ∧ p.var = none)
    (h0 : 2 ≤ s0.sig.toList.length) (hv0 : s0.var = none) :
    loopIter mE fB vm cmd env st tr =
      .done
        { verdict := 0,
          state :=
            { st with
              list := pre ++ s0 :: post,
              unsupportedSig := 0,
              unsupportedStr := none },
          failInputLogged := false,
          counterTrace := tr,
          capBreakRet := none,
          unsupSkipSig := some s0.sig } := by
  have hcv := create_variant_compound env.gen pre post s0 fB st.unsupportedSig
    st.unsupportedStr hpre h0 hv0
  simp only [loopIter, hlist, hcv]
  norm_num

/-! ### Helper lemmas: status scan, flag fold, format-string arithmetic -/

theorem scanStatus_skip_none :
    ∀ (pre l : List (Option Int)) (e : Bool), (∀ x ∈ pre, x = none) →
      scanStatus (pre ++ l) e = scanStatus l e
  | [], _, _, _ => rfl
  | x :: pre, l, e, h => by
      have hx : x = none := h x (List.mem_cons_self _ _)
      subst hx
      simp only [List.cons_append, scanStatus]
      exact scanStatus_skip_none pre l e (fun y hy => h y (List.mem_cons_of_mem _ hy))

theorem addArg_fold_flag {α : Type} :
    ∀ (sigs : List String) (st : DfState α),
      (sigs.foldl (fun st g => (df_fuzz_add_method_arg (some g) st).2) st).fuzzOnStrLen
        = (st.fuzzOnStrLen ||
            sigs.any (fun g => hasSub ['s'] g.toList || hasSub ['v'] g.toList))
  | [], st => by simp
  | g :: sigs, st => by
      simp only [List.foldl_cons, List.any_cons]
      rw [addArg_fold_flag sigs]
      simp [df_fuzz_add_method_arg, Bool.or_assoc]

theorem strLength_append (a b : String) :
    (a ++ b).length = a.length + b.length :=
  List.length_append a.data b.data

theorem fmtBody_length (sigs : List String) :
    (fmtBody sigs).length = (sigs.map fun g => 1 + g.length).sum := by
  induction sigs with
  | nil => rfl
  | cons g sigs ih =>
      simp only [fmtBody, List.map_cons, List.sum_cons, strLength_append, ih]
      have h1 : ("@" : String).length = 1 := rfl
      omega

theorem createFmtAux_none_iff (n : Int) :
    ∀ (sigs : List String) (t : Nat),
      createFmtAux n sigs t = none ↔
        ((t : Int) + (((sigs.map fun g => 1 + g.length).sum : Nat) : Int) > n - 3)
  | [], t => by simp [createFmtAux]
  | g :: sigs, t => by
      simp only [createFmtAux, List.map_cons, List.sum_cons]
      split_ifs with h
      · simp only [true_iff]
        generalize (sigs.map fun g => 1 + g.length).sum = S
        push_cast at h ⊢
        omega
      · rw [createFmtAux_none_iff n sigs (t + (g.length + 1))]
        generalize (sigs.map fun g => 1 + g.length).sum = S
        push_cast at h ⊢
        omega

theorem fmt_string_none_iff (sigs : List String) (n : Int) :
    df_fuzz_create_fmt_string sigs n = none ↔
      ((specFmtLen sigs : Int) > n - 1) := by
  unfold df_fuzz_create_fmt_string
  rcases haux : createFmtAux n sigs 1 with _ | tot
  · have h1 := (createFmtAux_none_iff n sigs 1).mp haux
    simp only [haux, Option.isSome_none, Bool.false_eq_true, if_false,
      true_iff]
    unfold specFmtLen
    generalize hS : (sigs.map fun g => 1 + g.length).sum = S at h1 ⊢
    push_cast at h1 ⊢
    omega
  · have h2 : ¬(createFmtAux n sigs 1 = none) := by simp [haux]
    have h3 := mt (createFmtAux_none_iff n sigs 1).mpr h2
    simp only [haux, Option.isSome_some, if_true]
    unfold specFmtLen
    generalize hS : (sigs.map fun g => 1 + g.length).sum = S at h3 ⊢
    push_cast at h3 ⊢
    constructor
    · intro hx
      simp at hx
    · intro hx
      omega

theorem fmt_string_some_length (sigs : List String) (n : Int) (s : String)
    (h : df_fuzz_create_fmt_string sigs n = some s) :
    s.length + 1 = specFmtLen sigs := by
  unfold df_fuzz_create_fmt_string at h
  split_ifs at h
  injection h with h'
  subst h'
  simp only [strLength_append, fmtBody_length, specFmtLen]
  have h1 : ("(" : String).length = 1 := rfl
  have h2 : (")" : String).length = 1 := rfl
  omega

/-! ### Claim theorems -/

/-- C2: for every process, the liveness probe `df_check_if_exited` reports
Exited (`0`) when the per-process status record cannot be opened because the
process no longer exists (`ENOENT`/`ENOTDIR`), reports Exited when the
record's (first) `CoreDumping` field is positive — a core dump in progress —
and reports Alive (`1`) when the field is present with value `0` or absent
after a full error-free scan of the record. -/
theorem liveness_probe_spec (pre rest : List (Option Int)) (d : Int) (e : Bool)
    (hpre : ∀ x ∈ pre, x = none) :
    df_check_if_exited ProcStatus.absent = 0 ∧
    (0 < d →
      df_check_if_exited (ProcStatus.content (pre ++ some d :: rest) e) = 0) ∧
    df_check_if_exited (ProcStatus.content (pre ++ some 0 :: rest) e) = 1 ∧
    df_check_if_exited (ProcStatus.content pre false) = 1 := by
  refine ⟨rfl, ?_, ?_, ?_⟩
  · intro hd
    simp only [df_check_if_exited]
    rw [scanStatus_skip_none pre _ e hpre]
    simp [scanStatus, hd]
  · simp only [df_check_if_exited]
    rw [scanStatus_skip_none pre _ e hpre]
    simp [scanStatus]
  · simp only [df_check_if_exited]
    have h := scanStatus_skip_none pre [] false hpre
    simpa [scanStatus] using h

/-- Witness for C2 at a concrete record: one other line before the
`CoreDumping` field, one after, and a truncated-read flag where allowed. -/
theorem liveness_probe_spec_witness :
    df_check_if_exited ProcStatus.absent = 0 ∧
    (0 < (1 : Int) →
      df_check_if_exited
        (ProcStatus.content ([none] ++ some 1 :: [none]) true) = 0) ∧
    df_check_if_exited (ProcStatus.content ([none] ++ some 0 :: [none]) true) = 1 ∧
    df_check_if_exited (ProcStatus.content [none] false) = 1 :=
  liveness_probe_spec [none] [none] 1 true (by decide)

/-- C3 counterexample: when the status record exists but opening it fails
(errno other than `ENOENT`/`ENOTDIR`), the probe returns the error `-1`, not
the Exited report (`0`) the claim requires for every read failure. -/
theorem open_failure_not_exited :
    df_check_if_exited ProcStatus.openFail = -1 ∧
    ¬ df_check_if_exited ProcStatus.openFail = 0 := by decide

/-- C3 (amended): a read failure after a successful open (a stream error
during the line scan, no `CoreDumping` field among the lines read) makes the
probe report Exited (`0`), and the fuzz loop then treats the target as
exited; but a failure to open an existing record returns the error `-1`
instead, which `df_fuzz_test_method` propagates as the internal error
verdict `-1` rather than treating the target as exited. -/
theorem read_failure_defaults_exited {α : Type} (lines : List (Option Int))
    (hnone : ∀ x ∈ lines, x = none) (maxExc : Nat) (fmtBuf : Int) (vm : Bool)
    (st : DfState α) (env : IterEnv α) (rest : List (IterEnv α))
    (hstat : env.status = ProcStatus.openFail)
    (hElem : ∀ s ∈ st.list, isElemSlot s = true)
    (hFmt : (df_fuzz_create_fmt_string (st.list.map fun s => s.sig)
      fmtBuf).isSome = true) :
    df_check_if_exited (ProcStatus.content lines true) = 0 ∧
    df_check_if_exited ProcStatus.openFail = -1 ∧
    (df_fuzz_test_method maxExc fmtBuf vm none st (env :: rest)).verdict = -1 := by
  refine ⟨?_, rfl, ?_⟩
  · simp only [df_check_if_exited]
    have h := scanStatus_skip_none lines [] true hnone
    simpa [scanStatus] using h
  · obtain ⟨hval, -, -⟩ := create_variant_ok env.gen st.list fmtBuf
      st.unsupportedSig st.unsupportedStr hElem hFmt
    obtain ⟨out, hout, hv⟩ := loopIter_open_fail maxExc fmtBuf vm env st [] hval hstat
    show (fuzzLoop maxExc fmtBuf vm none (env :: rest) st 0 0 []).verdict = -1
    simp only [fuzzLoop, hout]
    exact hv

/-- Witness for C3 (amended): a concrete truncated record and a concrete
one-iteration run against an unopenable status record. -/
theorem read_failure_defaults_exited_witness :
    df_check_if_exited (ProcStatus.content [none] true) = 0 ∧
    df_check_if_exited ProcStatus.openFail = -1 ∧
    (df_fuzz_test_method 5 64 false none (initDfState (α := Unit))
      [envOpenFail]).verdict = -1 :=
  read_failure_defaults_exited [none] (by decide) 5 64 false initDfState
    envOpenFail [] rfl (by decide) (by decide)

/-- C4 counterexample: the exception counter is not reset on a method switch.
After a concrete completed test — three tolerated exceptions, then a failing
health-check command — the verdict is 4 and `df_except_counter` is left at 3;
installing the next method with `df_fuzz_add_method` still leaves it at 3,
not 0. -/
theorem except_counter_not_reset_on_switch :
    c4Out.verdict = 4 ∧ c4Out.state.exceptCounter = 3 ∧
    ((df_fuzz_add_method mName2 c4Out.state).2).exceptCounter = 3 := by decide

/-- C4 (amended): within one method's test started with the counter at zero
(and a positive cap), the exception counter never exceeds `MAX_EXCEPTIONS`:
every value it takes after a call, and its final value, stay at or below the
cap; when the cap is reached with no crash or violation outstanding
(`ret = 0`), the loop stops, the counter is reset to zero and the verdict is
Success (0).  The counter is NOT reset on a method switch:
`df_fuzz_add_method` preserves it, so only the in-loop cap reset ever clears
it. -/
theorem except_counter_cap_invariant {α : Type} (maxExc : Nat) (fmtBuf : Int)
    (voidMethod : Bool) (cmd : Option String) (st : DfState α)
    (envs : List (IterEnv α)) (h0 : st.exceptCounter = 0) (hm : 0 < maxExc) :
    (∀ x ∈ (df_fuzz_test_method maxExc fmtBuf voidMethod cmd st envs).counterTrace,
      x ≤ maxExc) ∧
    (df_fuzz_test_method maxExc fmtBuf voidMethod cmd st
      envs).state.exceptCounter ≤ maxExc ∧
    ((df_fuzz_test_method maxExc fmtBuf voidMethod cmd st envs).capBreakRet =
        some 0 →
      (df_fuzz_test_method maxExc fmtBuf voidMethod cmd st envs).verdict = 0 ∧
      (df_fuzz_test_method maxExc fmtBuf voidMethod cmd st
        envs).state.exceptCounter = 0) ∧
    (∀ (name : String) (st2 : DfState α),
      ((df_fuzz_add_method name st2).2).exceptCounter = st2.exceptCounter) := by
  have h1 := fuzzLoop_counter maxExc fmtBuf voidMethod cmd envs st 0 0 []
    (by omega) (by simp)
  exact ⟨h1.1, h1.2, fuzzLoop_cap maxExc fmtBuf voidMethod cmd envs st 0 0 [],
    fun name st2 => rfl⟩

/-- Witness for C4 (amended): a concrete run of two tolerated exceptions with
cap 2 — the cap is reached, the loop stops with verdict 0 and the counter is
reset. -/
theorem except_counter_cap_invariant_witness :
    (∀ x ∈ (df_fuzz_test_method 2 64 false none c4State
      [envExc, envExc]).counterTrace, x ≤ 2) ∧
    (df_fuzz_test_method 2 64 false none c4State
      [envExc, envExc]).state.exceptCounter ≤ 2 ∧
    ((df_fuzz_test_method 2 64 false none c4State [envExc, envExc]).capBreakRet =
        some 0 →
      (df_fuzz_test_method 2 64 false none c4State [envExc, envExc]).verdict = 0 ∧
      (df_fuzz_test_method 2 64 false none c4State
        [envExc, envExc]).state.exceptCounter = 0) ∧
    (∀ (name : String) (st2 : DfState Unit),
      ((df_fuzz_add_method name st2).2).exceptCounter = st2.exceptCounter) :=
  except_counter_cap_invariant 2 64 false none c4State [envExc, envExc] rfl
    (by decide)

/-- C5: for every method whose argument list contains a compound
(multi-character) signature — each earlier slot being a supported elementary
signature with an empty value slot — value generation aborts for the whole
method: `df_fuzz_create_list_variants` returns the unsupported marker `1`
with every already-generated value released (the slot list comes back with
all value slots empty, unchanged) and the signal text set to the offending
signature; the method's test then ends with the unsupported-skip outcome —
return value 0, not an error — the skip consumes exactly that signature
text, and the signal (`df_unsupported_sig` and `df_unsupported_sig_str`) is
cleared before the next method. -/
theorem unsupported_signature_skip {α : Type} (maxExc : Nat) (fmtBuf : Int)
    (vm : Bool) (cmd : Option String) (st : DfState α) (env : IterEnv α)
    (rest : List (IterEnv α)) (pre post : List (DfSignature α))
    (s0 : DfSignature α)
    (hlist : st.list = pre ++ s0 :: post)
    (hpre : ∀ p ∈ pre, isElemSlot p = true ∧ p.var = none)
    (h0 : 2 ≤ s0.sig.toList.length) (hv0 : s0.var = none) :
    df_fuzz_create_list_variants env.gen st.list st.unsupportedStr =
      (1, st.list, some s0.sig) ∧
    (df_fuzz_test_method maxExc fmtBuf vm cmd st (env :: rest)).verdict = 0 ∧
    (df_fuzz_test_method maxExc fmtBuf vm cmd st (env :: rest)).unsupSkipSig =
      some s0.sig ∧
    (df_fuzz_test_method maxExc fmtBuf vm cmd st
      (env :: rest)).state.unsupportedSig = 0 ∧
    (df_fuzz_test_method maxExc fmtBuf vm cmd st
      (env :: rest)).state.unsupportedStr = none ∧
    (df_fuzz_test_method maxExc fmtBuf vm cmd st (env :: rest)).state.list =
      st.list := by
  have heng : df_fuzz_create_list_variants env.gen st.list st.unsupportedStr =
      (1, st.list, some s0.sig) := by
    unfold df_fuzz_create_list_variants
    rw [hlist]
    rw [listVariantsAux_compound env.gen s0 post h0 hv0 pre [] 0
      st.unsupportedStr hpre (by intro q hq; simp at hq)]
    simp
  have hstep := loopIter_compound maxExc fmtBuf vm cmd env st [] pre post s0
    hlist hpre h0 hv0
  refine ⟨heng, ?_, ?_, ?_, ?_, ?_⟩ <;>
    (simp only [df_fuzz_test_method, fuzzLoop, hstep]; try simp [hlist])

/-- Witness for C5: the concrete catalog `(i, as)` — the compound `as` slot
aborts generation; the test skips with verdict 0 and clears the signal. -/
theorem unsupported_signature_skip_witness :
    df_fuzz_create_list_variants unitGen c5State.list c5State.unsupportedStr =
      (1, c5State.list, some asSig) ∧
    (df_fuzz_test_method 5 64 false none c5State [envPlain]).verdict = 0 ∧
    (df_fuzz_test_method 5 64 false none c5State [envPlain]).unsupSkipSig =
      some asSig ∧
    (df_fuzz_test_method 5 64 false none c5State
      [envPlain]).state.unsupportedSig = 0 ∧
    (df_fuzz_test_method 5 64 false none c5State
      [envPlain]).state.unsupportedStr = none ∧
    (df_fuzz_test_method 5 64 false none c5State [envPlain]).state.list =
      c5State.list :=
  unsupported_signature_skip 5 64 false none c5State envPlain [] [slotI] []
    slotAs rfl (by decide) (by decide) rfl

/-- C8 counterexample: a void method whose remote reply carries the non-empty
tuple type `(s)` (process alive, health check passing) yields verdict 2, but
no full log record of the triggering argument values is written: the
`fail_label` input-logging step is guarded by `ret != 1` and is skipped for
exactly this verdict. -/
theorem void_violation_log_cex :
    c8Out.verdict = 2 ∧ c8Out.failInputLogged = false := by decide

/-- C8 (amended): when a method declared void returns a non-empty tuple
(process alive, no health-check command), the verdict is
VoidContractViolated (return code 2) — the failure message is emitted at
detection time by `df_fuzz_call_method` — but the full log record of the
triggering argument values is NOT written: on every run returning 2 the
`fail_label` input record is skipped (it is written only for crash and
health-check-failure verdicts). -/
theorem void_violation_verdict {α : Type} (maxExc : Nat) (fmtBuf : Int)
    (st : DfState α) (env : IterEnv α) (rest envs : List (IterEnv α))
    (t : String)
    (hElem : ∀ s ∈ st.list, isElemSlot s = true)
    (hFmt : (df_fuzz_create_fmt_string (st.list.map fun s => s.sig)
      fmtBuf).isSome = true)
    (hrep : env.reply = DBusReply.ok t) (ht : (t == emptyTupleTy) = false)
    (hAlive : df_check_if_exited env.status = 1) :
    ((df_fuzz_test_method maxExc fmtBuf true none st (env :: rest)).verdict = 2 ∧
     (df_fuzz_test_method maxExc fmtBuf true none st
       (env :: rest)).failInputLogged = false) ∧
    ∀ (vm : Bool) (cmd : Option String) (st2 : DfState α),
      (df_fuzz_test_method maxExc fmtBuf vm cmd st2 envs).verdict = 2 →
      (df_fuzz_test_method maxExc fmtBuf vm cmd st2 envs).failInputLogged =
        false := by
  constructor
  · obtain ⟨hval, -, -⟩ := create_variant_ok env.gen st.list fmtBuf
      st.unsupportedSig st.unsupportedStr hElem hFmt
    obtain ⟨out, hout, h2, hl⟩ := loopIter_void_violation maxExc fmtBuf env st
      [] t hval hrep ht hAlive
    constructor
    · show (fuzzLoop maxExc fmtBuf true none (env :: rest) st 0 0 []).verdict = 2
      simp only [fuzzLoop, hout]
      exact h2
    · show (fuzzLoop maxExc fmtBuf true none (env :: rest) st 0 0
        []).failInputLogged = false
      simp only [fuzzLoop, hout]
      exact hl
  · intro vm cmd st2
    exact fuzzLoop_two maxExc fmtBuf vm cmd envs st2 0 0 []

/-- Witness for C8 (amended): the concrete run `c8Out` instantiated through
the theorem. -/
theorem void_violation_verdict_witness :
    ((df_fuzz_test_method 5 64 true none (initDfState (α := Unit))
       [envViol]).verdict = 2 ∧
     (df_fuzz_test_method 5 64 true none (initDfState (α := Unit))
       [envViol]).failInputLogged = false) ∧
    ∀ (vm : Bool) (cmd : Option String) (st2 : DfState Unit),
      (df_fuzz_test_method 5 64 vm cmd st2 []).verdict = 2 →
      (df_fuzz_test_method 5 64 vm cmd st2 []).failInputLogged = false :=
  void_violation_verdict 5 64 initDfState envViol [] [] sTupleTy (by decide)
    (by decide) rfl (by decide) (by decide)

/-- C6 counterexample: a catalog with the single argument signature `o`
(object path — a string-like type in the claim's taxonomy, and one fuzzed
with generated strings) gets `fuzz_on_str_len = 0`: the code checks only for
the substrings `s` and `v`, so the claimed iff fails at this input. -/
theorem fuzz_on_str_len_objpath_cex :
    (buildCatalog (α := Unit) mName [oSig]).fuzzOnStrLen = false ∧
    [oSig].any specStringLike = true := by decide

/-- C6 (amended): for every method catalog, `fuzz_on_str_len` is true iff at
least one argument signature contains the letter `s` or the letter `v`
(`strstr` substring search).  Plain strings and variants set it — and so
does any compound signature containing those letters — but object-path (`o`)
and signature-string (`g`) arguments do not, contrary to the claim's
string-like reading. -/
theorem fuzz_on_str_len_contains_sv {α : Type} (name : String)
    (sigs : List String) :
    (buildCatalog (α := α) name sigs).fuzzOnStrLen =
      sigs.any (fun g => hasSub ['s'] g.toList || hasSub ['v'] g.toList) := by
  unfold buildCatalog
  rw [addArg_fold_flag]
  simp [df_fuzz_add_method]

/-- C7 counterexample: for the single signature `i` and buffer size `n = 5`,
the claimed composed length `1 + Σ(1+len) + 1 + 1` equals 5, which does not
exceed the buffer size, yet composition fails (returns the error and writes
no complete descriptor): the code's check is off by one against the claim's
boundary. -/
theorem fmt_string_boundary_cex :
    df_fuzz_create_fmt_string [iSig] 5 = none ∧
    ¬ ((specFmtLen [iSig] : Int) > 5) := by decide

/-- C7 (amended): the composed tuple type descriptor produced by
`df_fuzz_create_fmt_string` occupies exactly
`1 (open) + Σ (1 + len sig_i) + 1 (close) + 1 (terminator)` bytes
(string length plus terminator), and composition fails cleanly — error
return, no complete descriptor written — exactly when this length exceeds
`n - 1`, one byte less than the buffer size `n` (the check reserves a spare
byte; at length exactly `n` the descriptor would fit but the code fails). -/
theorem fmt_string_length_exact :
    (∀ (sigs : List String) (n : Int) (s : String),
       df_fuzz_create_fmt_string sigs n = some s →
       s.length + 1 = specFmtLen sigs) ∧
    (∀ (sigs : List String) (n : Int),
       df_fuzz_create_fmt_string sigs n = none ↔
         ((specFmtLen sigs : Int) > n - 1)) :=
  ⟨fmt_string_some_length, fmt_string_none_iff⟩

/-- Witness for C7 (amended): `(@i)` composed in a 6-byte buffer has length
4 plus terminator, matching `specFmtLen [i] = 5`; and in a 5-byte buffer
composition fails, with the boundary exactly at `n - 1`. -/
theorem fmt_string_length_exact_witness :
    (fmtI.length + 1 = specFmtLen [iSig]) ∧
    (df_fuzz_create_fmt_string [iSig] 5 = none ↔
      ((specFmtLen [iSig] : Int) > 5 - 1)) :=
  ⟨fmt_string_length_exact.1 [iSig] 6 fmtI (by decide),
   fmt_string_length_exact.2 [iSig] 5⟩

/-- C9 counterexample: releasing a live catalog twice in sequence
double-frees.  The first `df_fuzz_clean_method` frees the method name and
every slot node but leaves `df_method_name` dangling (it is freed, not set
to NULL); the second call then frees a dangling pointer — a double free
(`none` in the allocation-state model). -/
theorem double_clean_double_free :
    df_fuzz_clean_method
        { namePtrNull := false, nameLive := true, slots := [iSig] } =
      some { namePtrNull := false, nameLive := false, slots := [] } ∧
    df_fuzz_clean_method
        { namePtrNull := false, nameLive := false, slots := [] } = none := by
  decide

/-- C9 (amended): releasing the argument catalog once after a method test
frees the name and leaves zero live argument slots (an empty list, with the
list head reset, so the slot-freeing part alone is idempotent); but the
method-name pointer is not cleared, and a second release in sequence
double-frees it — cleanup is safe exactly once per `df_fuzz_add_method`. -/
theorem clean_method_once_safe (st : CatalogMem)
    (hl : st.nameLive = true) (hp : st.namePtrNull = false) :
    df_fuzz_clean_method st =
      some { namePtrNull := false, nameLive := false, slots := [] } ∧
    df_fuzz_clean_method
      { namePtrNull := false, nameLive := false, slots := [] } = none := by
  refine ⟨?_, by decide⟩
  simp [df_fuzz_clean_method, hp, hl]

/-- Witness for C9 (amended) at a concrete two-slot catalog. -/
theorem clean_method_once_safe_witness :
    df_fuzz_clean_method
        { namePtrNull := false, nameLive := true, slots := [iSig, oSig] } =
      some { namePtrNull := false, nameLive := false, slots := [] } ∧
    df_fuzz_clean_method
      { namePtrNull := false, nameLive := false, slots := [] } = none :=
  clean_method_once_safe
    { namePtrNull := false, nameLive := true, slots := [iSig, oSig] } rfl rfl

/-- C10: calling `df_fuzz_add_method_arg` with a NULL signature returns 0
(success) and leaves the module state completely unchanged — same argument
count, no node appended to the list, `fuzz_on_str_len` untouched, and every
other field identical. -/
theorem add_method_arg_null_noop {α : Type} (st : DfState α) :
    df_fuzz_add_method_arg none st = (0, st) := rfl
